import Mathlib

/-!
# CGP two-phase controller (`main.c`)

A shallow embedding of `evolves_cgp_bdd`, `optimize_circuit` and `main` of `main.c`.

The program state touched by the controller is the record `Mem`.  Everything the
controller calls but `main.c` does not define (the operations of `include/cgp.h`, the BDD
engine, `sscanf`) is collected in the record `Helpers` and stays a parameter of every
definition.  Both loops are `while (1)` loops; they are unrolled with a fuel argument and
report, besides their result, a snapshot of the state after each `set_parent`.

Integers (`int`, `long`) are mathematical integers: signed overflow is undefined in C, and
the budget counter only moves downwards from its start value by steps of `NPOP - 1`.

`main` takes the argument vector as a list, `argc` being its length.  `main.c` checks neither
`argc` nor the result of `fopen`: a run with fewer than six arguments hands a missing entry to
`sscanf`, and a run whose log path cannot be opened hands `NULL` to `fprintf`.  Both are
outcomes of the model (`crashed`).  Memory allocation is taken to succeed.
-/

namespace CGP

/-- One `Individual` of the population array.  `main.c` reads the fields `score` and
`num_transistors`; the gene grid and the other derived fields are kept as `genes`. -/
structure Individual where
  score : Int
  num_transistors : Int
  genes : List Int
deriving DecidableEq

/-- The global `table`: `main.c` reads `num_inputs` and `num_outputs` for the log header. -/
structure Table where
  num_inputs : Int
  num_outputs : Int
  functions : List Int
deriving DecidableEq

/-- The two readings of the BDD engine used by the controller, `bdd_getnodenum()` and
`bdd_getallocnum()`. -/
structure Bdd where
  nodenum : Int
  allocnum : Int
deriving DecidableEq

/-- The lines `main.c` writes, one constructor per `fprintf`/`printf` format. -/
inductive Line where
  | SAM
  | SAM_plus_GAM
  | PM
  | invalid_mutation
  | separator
  | header (num_outputs num_inputs : Int)
  | sat_count (score : Int) (individual : Nat) (evaluations : Int)
  | num_transistors (transistors : Int) (individual : Nat) (evaluations : Int)
  | total_time
  | sow_failed
  | other (text : String)
deriving DecidableEq

/-- Where `out_file` points: standard output, a file opened by `fopen`, or `NULL` (the value
of the global before line 189 and the result of an `fopen` that failed). -/
inductive Stream where
  | stdout
  | file (path : String)
  | null
deriving DecidableEq

/-- The memory the controller and its helpers work on: the population array, the globals
`maxeval`, `NCOL`, `LB`, `table`, the engine readings, the state of `rand`, the lines written
through `out_file` and the lines written by `printf`. -/
structure Mem where
  population : Nat → Individual
  maxeval : Int
  NCOL : Int
  LB : Int
  table : Table
  bdd : Bdd
  rng : Option Int
  out : List Line
  console : List Line

/-- What `main.c` uses without defining it: the constant `NPOP`, the operations declared in
`include/cgp.h`, the BDD engine, `sscanf` and `fopen` (`true` when a stream is returned,
`false` when the result is `NULL`).  A helper that receives the population pointer
and returns an index or rearranges slots acts on the array; the mutation operators and the
evaluation routines act on the whole memory. -/
structure Helpers where
  NPOP : Nat
  sscanf_d : String → String → Option Int
  fopen : String → Bool
  bdd_init : Int → Int → Bdd
  bdd_gbc : Bdd → Bdd
  table_constructor : String → Table
  initialize_population : List Int → Mem → Mem
  sow_population : Individual → String → Option Int → Individual
  clear_individiual_active_genes : Individual → Individual
  calculate_individual_sat_count : Nat → Mem → Mem
  evaluate_parent_sat_count : Mem → Mem
  evaluate_population_sat_count : Mem → Mem
  find_best_individual_sat_count : (Nat → Individual) → Nat
  finds_individual_active_genes : Individual → Individual
  get_max_depth : Individual → Individual
  get_num_gates : Individual → Individual
  count_num_transistors_individual : Individual → Individual
  set_parent : (Nat → Individual) → Nat → Nat → Individual
  clone_parent : (Nat → Individual) → Nat → Individual
  apply_SAM : List Int → Mem → Mem
  apply_SAM_plus_GAM : List Int → Mem → Mem
  apply_PM : List Int → Mem → Mem
  clear_population_active_genes : (Nat → Individual) → Nat → Individual
  find_population_active_genes : (Nat → Individual) → Nat → Individual
  find_optimized_individual : (Nat → Individual) → Nat
  print_post_optimization_data : Individual → List Line

/-- The outcome of one of the two loops: `gens` lists the memory right after `set_parent` in
every generation that was run, oldest first; `result` is `none` when the fuel ran out before
the loop was left. -/
structure Phase (α : Type) where
  gens : List Mem
  result : Option α

/-- The array `gates` of `main`. -/
def gates : List Int := [1, 2, 3, 4, 5, 6, 7, 8]

/-- The `(int)` cast of a `double` value: truncation toward zero. -/
def int_cast (q : ℚ) : Int := if 0 ≤ q then ⌊q⌋ else ⌈q⌉

/-- The test `bdd_getnodenum() >= (int)(0.75 * bdd_getallocnum())` (lines 92 and 158) on the
readings `n` and `a`.  `0.75` is a dyadic constant and `a` an `int`, so the `double` product
is exactly `3 * a / 4` and the cast truncates it toward zero: `Int.tdiv (3 * a) 4`
(`int_cast_three_quarters` below relates the two forms). -/
def gc_test (n a : Int) : Bool := decide (n ≥ Int.tdiv (3 * a) 4)

/-- The resource guard of both loops (lines 92-95 and 158-161). -/
def resource_guard (h : Helpers) (m : Mem) : Mem :=
  if gc_test m.bdd.nodenum m.bdd.allocnum = true then { m with bdd := h.bdd_gbc m.bdd } else m

/-- The mutation dispatch at the head of both loops (lines 68-73 and 131-136). -/
def mutate (h : Helpers) (mutation : Int) (m : Mem) : Mem :=
  if mutation = 1 then h.apply_SAM gates m
  else if mutation = 2 then h.apply_SAM_plus_GAM gates m
  else if mutation = 3 then h.apply_PM gates m
  else m

/-- Lines 68-78: mutation, `find_best_individual_sat_count`, `set_parent`.  Returns the
memory after the promotion and the winner index. -/
def evolves_promote (h : Helpers) (mutation : Int) (m : Mem) : Mem × Nat :=
  let m1 := mutate h mutation m
  let best_individual := h.find_best_individual_sat_count m1.population
  ({ m1 with population := h.set_parent m1.population best_individual }, best_individual)

/-- Lines 92-95 and 103 after a promotion: the resource guard, then `clone_parent`; the memory
with which the next generation of `evolves_cgp_bdd` starts. -/
def evolves_next (h : Helpers) (mutation : Int) (m : Mem) : Mem :=
  let m3 := resource_guard h (evolves_promote h mutation m).1
  { m3 with population := h.clone_parent m3.population }

/-- The `while (1)` loop of `evolves_cgp_bdd` (lines 66-104) followed, on `break`, by lines
105-109.  The result is the returned `int` and the memory at the return. -/
def evolves_loop (h : Helpers) (mutation : Int) : Nat → Mem → Phase (Int × Mem)
  | 0, _ => ⟨[], none⟩
  | fuel + 1, m =>
    let m2 := (evolves_promote h mutation m).1
    let best_individual := (evolves_promote h mutation m).2
    if (m2.population 0).score = 0 then
      let m3 := { m2 with out := m2.out ++
        [Line.sat_count (m2.population 0).score best_individual m2.maxeval] }
      ⟨[m2], some (1, { m3 with out := m3.out ++ [Line.separator] ++
        h.print_post_optimization_data (m3.population 0) })⟩
    else
      let m3 := resource_guard h m2
      if m3.maxeval - ((h.NPOP : Int) - 1) < 0 then
        ⟨[m2], some (0, { m3 with out := m3.out ++
          [Line.sat_count (m3.population 0).score best_individual m3.maxeval] })⟩
      else
        let r := evolves_loop h mutation fuel (evolves_next h mutation m)
        ⟨m2 :: r.gens, r.result⟩

/-- Lines 44-65 of `evolves_cgp_bdd`: first evaluation, first promotion, log header. -/
def evolves_prologue (h : Helpers) (m : Mem) : Mem :=
  let m1 := h.evaluate_population_sat_count (h.evaluate_parent_sat_count m)
  let best_individual := h.find_best_individual_sat_count m1.population
  let p1 := Function.update m1.population best_individual
    (h.count_num_transistors_individual (h.get_num_gates (h.get_max_depth
      (h.finds_individual_active_genes (m1.population best_individual)))))
  let p2 := h.clone_parent (h.set_parent p1 best_individual)
  { m1 with population := p2,
            out := m1.out ++ [Line.separator,
              Line.header m1.table.num_outputs m1.table.num_inputs] }

/-- The function `evolves_cgp_bdd`. -/
def evolves_cgp_bdd (h : Helpers) (mutation : Int) (fuel : Nat) (m : Mem) :
    Phase (Int × Mem) :=
  evolves_loop h mutation fuel (evolves_prologue h m)

/-- Lines 131-151: mutation, recomputation of the active genes, `find_optimized_individual`,
`set_parent`.  Returns the memory after the promotion and the winner index. -/
def optimize_promote (h : Helpers) (mutation : Int) (m : Mem) : Mem × Nat :=
  let m1 := mutate h mutation m
  let p1 := h.find_population_active_genes (h.clear_population_active_genes m1.population)
  let best_individual := h.find_optimized_individual p1
  ({ m1 with population := h.set_parent p1 best_individual }, best_individual)

/-- Lines 158-161 and 173 after a promotion: the resource guard, then `clone_parent`; the
memory with which the next generation of `optimize_circuit` starts. -/
def optimize_next (h : Helpers) (mutation : Int) (m : Mem) : Mem :=
  let m3 := resource_guard h (optimize_promote h mutation m).1
  { m3 with population := h.clone_parent m3.population }

/-- The `while (1)` loop of `optimize_circuit` (lines 129-174) followed by lines 175-176. -/
def optimize_loop (h : Helpers) (mutation : Int) : Nat → Mem → Phase Mem
  | 0, _ => ⟨[], none⟩
  | fuel + 1, m =>
    let m2 := (optimize_promote h mutation m).1
    let best_individual := (optimize_promote h mutation m).2
    let m3 := resource_guard h m2
    if m3.maxeval - ((h.NPOP : Int) - 1) < 0 then
      ⟨[m2], some { m3 with out := m3.out ++
        [Line.num_transistors (m3.population 0).num_transistors best_individual m3.maxeval,
          Line.separator] ++ h.print_post_optimization_data (m3.population 0) }⟩
    else
      let r := optimize_loop h mutation fuel (optimize_next h mutation m)
      ⟨m2 :: r.gens, r.result⟩

/-- The function `optimize_circuit`. -/
def optimize_circuit (h : Helpers) (mutation : Int) (fuel : Nat) (m : Mem) : Phase Mem :=
  optimize_loop h mutation fuel { m with out := m.out ++ [Line.separator] }

/-- The calls `main` makes after the selector check, in program order. -/
inductive Call where
  | bdd_init
  | table_constructor
  | initialize_population
  | evolves_cgp_bdd
  | sow_population
  | clear_individiual_active_genes
  | calculate_individual_sat_count
  | clone_parent
  | optimize_circuit
  | bdd_done
deriving DecidableEq

/-- What a run of `main` leaves behind: the calls made, the exit code (`none` when the run did
not exit), whether the run crashed (a `NULL` handed to `sscanf` or to `fprintf`), the value of
`out_file`, and the memory.  A run with `exit = none` and `crashed = false` was still inside a
loop when the fuel ran out.  A crash is undefined behaviour in C: the outcome records where
the run stopped, with no call and no write after it. -/
structure Outcome where
  calls : List Call
  exit : Option Int
  crashed : Bool
  out_file : Stream
  mem : Mem

/-- The entry `argv[i]` of the argument vector, for `i < argc`.  `argc` is the length of the
vector; the reads of lines 182-185 with `argc < 6` are the crash branch of `main`, every other
read of `main` is in range when it is made. -/
def arg (argv : List String) (i : Nat) : String := argv.getD i ("")

/-- The value of the global `mutation` after line 185.  The global starts at 0 and keeps it
when `sscanf` converts nothing. -/
def parsed_mutation (h : Helpers) (argv : List String) : Int :=
  (h.sscanf_d (arg argv 5) ("mutation=%d")).getD 0

/-- Lines 189-200: the value of `out_file`.  The result of `fopen` is stored unchecked, so a
path that cannot be opened leaves `NULL`. -/
def main_out_file (h : Helpers) (argv : List String) : Stream :=
  if (argv.length : Int) = 7 then
    (if h.fopen (arg argv 6) = true then Stream.file (arg argv 6) else Stream.null)
  else if (argv.length : Int) = 8 then
    (if h.fopen (arg argv 7) = true then Stream.file (arg argv 7) else Stream.null)
  else Stream.stdout

/-- Lines 181-187: the globals after the argument scan and `srand`.  A variable whose
conversion fails keeps its previous value; the local `semente` has none. -/
def main_config (h : Helpers) (argv : List String) (m0 : Mem) : Mem :=
  let semente := h.sscanf_d (arg argv 2) ("seed=%d")
  let ncol := (h.sscanf_d (arg argv 3) ("ncol=%d")).getD m0.NCOL
  let budget := (h.sscanf_d (arg argv 4) ("maxeval=%ld")).getD m0.maxeval
  { m0 with NCOL := ncol, maxeval := budget, LB := Int.tdiv ncol 2, rng := semente,
            out := [], console := [] }

/-- Lines 202-207: the banner of a valid selector, `none` for the `else` branch. -/
def mutation_banner (mutation : Int) : Option Line :=
  if mutation = 1 then some Line.SAM
  else if mutation = 2 then some Line.SAM_plus_GAM
  else if mutation = 3 then some Line.PM
  else none

/-- Lines 214-225: engine start, table load, random population. -/
def main_setup (h : Helpers) (argv : List String) (m : Mem) : Mem :=
  let m1 := { m with bdd := h.bdd_init 10000000 100000 }
  let m2 := { m1 with table := h.table_constructor (arg argv 1) }
  h.initialize_population gates m2

/-- Lines 236-241: the parent is built from the circuit description and its score is
recomputed. -/
def main_sow (h : Helpers) (argv : List String) (m : Mem) : Mem :=
  let aux := h.sscanf_d (arg argv 6) ("ngates=%d")
  let p1 := Function.update m.population 0 (h.sow_population (m.population 0) (arg argv 1) aux)
  let p2 := Function.update p1 0 (h.clear_individiual_active_genes (p1 0))
  let m2 := { m with population := p2 }
  h.calculate_individual_sat_count 0 m2

/-- Lines 251-259: engine shutdown, total-time line, `return 0`. -/
def main_finish (calls : List Call) (out_file : Stream) (m : Mem) : Outcome :=
  ⟨calls ++ [Call.bdd_done], some 0, false, out_file,
    { m with out := m.out ++ [Line.total_time] }⟩

/-- Lines 227-233: fresh-random mode. -/
def main_fresh (h : Helpers) (fuel : Nat) (mutation : Int) (calls : List Call)
    (out_file : Stream) (m : Mem) : Outcome :=
  match (evolves_cgp_bdd h mutation fuel m).result with
  | none => ⟨calls ++ [Call.evolves_cgp_bdd], none, false, out_file, m⟩
  | some (r, m1) =>
    if r ≠ 0 then
      match (optimize_circuit h mutation fuel m1).result with
      | none =>
        ⟨calls ++ [Call.evolves_cgp_bdd, Call.optimize_circuit], none, false, out_file, m1⟩
      | some m2 => main_finish (calls ++ [Call.evolves_cgp_bdd, Call.optimize_circuit]) out_file m2
    else main_finish (calls ++ [Call.evolves_cgp_bdd]) out_file m1

/-- Lines 234-249: seeded mode. -/
def main_seeded (h : Helpers) (fuel : Nat) (mutation : Int) (argv : List String)
    (calls : List Call) (out_file : Stream) (m : Mem) : Outcome :=
  let sown := [Call.sow_population, Call.clear_individiual_active_genes,
    Call.calculate_individual_sat_count]
  let m1 := main_sow h argv m
  if (m1.population 0).score ≠ 0 then
    ⟨calls ++ sown, some 1, false, out_file,
      { m1 with console := m1.console ++ [Line.sow_failed] }⟩
  else
    let m2 := { m1 with population := h.clone_parent m1.population }
    match (optimize_circuit h mutation fuel m2).result with
    | none =>
      ⟨calls ++ sown ++ [Call.clone_parent, Call.optimize_circuit], none, false, out_file, m2⟩
    | some m3 =>
      main_finish (calls ++ sown ++ [Call.clone_parent, Call.optimize_circuit]) out_file m3

/-- Lines 227-249: the two modes, entered after the setup. -/
def main_modes (h : Helpers) (fuel : Nat) (mutation : Int) (argc : Int)
    (argv : List String) (out_file : Stream) (m : Mem) : Outcome :=
  let calls := [Call.bdd_init, Call.table_constructor, Call.initialize_population]
  if argc ≤ 7 then main_fresh h fuel mutation calls out_file m
  else if argc > 7 then main_seeded h fuel mutation argv calls out_file m
  else main_finish calls out_file m

/-- The memory at line 226 of a run with a valid selector: configuration, banner, setup. -/
def main_entry (h : Helpers) (argv : List String) (m0 : Mem) : Mem :=
  let m := main_config h argv m0
  main_setup h argv { m with out := m.out ++ (mutation_banner (parsed_mutation h argv)).toList }

/-- The function `main`, on the argument vector (`argc` is its length) and the initial values
of the globals.  With `argc < 6` one of the reads `argv[2]` .. `argv[5]` of lines 182-185 hands
`NULL` (or an entry past the end) to `sscanf`: the run crashes there.  With `out_file = NULL`
the first `fprintf` (lines 203-210) crashes. -/
def main (h : Helpers) (fuel : Nat) (argv : List String) (m0 : Mem) : Outcome :=
  let argc : Int := argv.length
  if argc < 6 then ⟨[], none, true, Stream.null, m0⟩
  else
    let mutation := parsed_mutation h argv
    let out_file := main_out_file h argv
    let m := main_config h argv m0
    if out_file = Stream.null then ⟨[], none, true, out_file, m⟩
    else
      match mutation_banner mutation with
      | none => ⟨[], some 1, false, out_file, { m with out := m.out ++ [Line.invalid_mutation] }⟩
      | some _ => main_modes h fuel mutation argc argv out_file (main_entry h argv m0)

/-! ## Helpers of `include/cgp.h` that decide the Phase II selection -/

/-- Modelled from the spec: the body of `set_parent` (declared in `include/cgp.h`, not part of
the sources at hand).  "Promote the winner into the parent slot": slot 0 receives a copy of
the winner, every other slot is left as it is. -/
def set_parent (population : Nat → Individual) (best_individual : Nat) : Nat → Individual :=
  fun i => if i = 0 then population best_individual else population i

/-- Modelled from the spec: the body of `clone_parent` (declared in `include/cgp.h`, not part
of the sources at hand).  "Clone the new parent into all offspring slots": each of the `NPOP`
slots receives a copy of slot 0. -/
def clone_parent (NPOP : Nat) (population : Nat → Individual) : Nat → Individual :=
  fun i => if i < NPOP then population 0 else population i

/-- Modelled from the spec: the scan behind `find_optimized_individual` over the slots
`0 .. n-1`.  "Among individuals with score 0 (a hard correctness filter - non-zero-score
candidates are never selected here), select the one with the lowest transistor count, ties
broken the same way as Phase I" (the later-indexed candidate wins a tie). -/
def find_optimized_upto (population : Nat → Individual) : Nat → Option Nat
  | 0 => none
  | n + 1 =>
    match find_optimized_upto population n with
    | none => if (population n).score = 0 then some n else none
    | some j =>
      if (population n).score = 0 ∧
          (population n).num_transistors ≤ (population j).num_transistors
      then some n else some j

/-- Modelled from the spec: the body of `find_optimized_individual` (declared in
`include/cgp.h`, not part of the sources at hand): the selection of `find_optimized_upto` over
all `NPOP` slots; with no score-0 individual there is nothing to select and the parent slot
is returned. -/
def find_optimized_individual (NPOP : Nat) (population : Nat → Individual) : Nat :=
  (find_optimized_upto population NPOP).getD 0

/-- Modelled from the spec: the helpers `h` with `set_parent`, `clone_parent` and
`find_optimized_individual` (bodies in `include/cgp.h`, not part of the sources at hand)
replaced by the three definitions above. -/
def spec_helpers (h : Helpers) : Helpers :=
  { h with set_parent := set_parent,
           clone_parent := clone_parent h.NPOP,
           find_optimized_individual := find_optimized_individual h.NPOP }

/-! ## A small instance, used to run the model -/

/-- The offspring a demo mutation puts into slot `i`, from the parent: slot 1 moves one step
toward a correct circuit, and once correct saves one transistor; the other slots get worse. -/
def demo_offspring (parent : Individual) (i : Nat) : Individual :=
  if i = 1 then
    (if parent.score = 0 then { parent with num_transistors := parent.num_transistors - 1 }
     else { parent with score := parent.score - 1 })
  else { parent with score := parent.score + 1 }

/-- A demo mutation operator for three slots: rewrites the offspring slots and charges two
evaluations. -/
def demo_mutation (_ : List Int) (m : Mem) : Mem :=
  { m with maxeval := m.maxeval - 2,
           population := fun i =>
             if i = 0 then m.population 0 else demo_offspring (m.population 0) i }

/-- A demo Phase I selection over three slots: lowest score, the later slot on a tie. -/
def demo_find_best (population : Nat → Individual) : Nat :=
  let b1 := if (population 1).score ≤ (population 0).score then 1 else 0
  if (population 2).score ≤ (population b1).score then 2 else b1

/-- Demo helpers: `NPOP = 3`, every `sscanf` conversion yields 1, the engine starts at 10
nodes of 100 and a collection empties it. -/
def demo_helpers : Helpers where
  NPOP := 3
  sscanf_d := fun _ _ => some 1
  fopen := fun _ => true
  bdd_init := fun _ _ => ⟨10, 100⟩
  bdd_gbc := fun b => ⟨0, b.allocnum⟩
  table_constructor := fun _ => ⟨2, 1, []⟩
  initialize_population := fun _ m => { m with population := fun _ => ⟨2, 10, []⟩ }
  sow_population := fun x _ _ => { x with score := 0, num_transistors := 12 }
  clear_individiual_active_genes := fun x => x
  calculate_individual_sat_count := fun _ m => m
  evaluate_parent_sat_count := fun m => m
  evaluate_population_sat_count := fun m => m
  find_best_individual_sat_count := demo_find_best
  finds_individual_active_genes := fun x => x
  get_max_depth := fun x => x
  get_num_gates := fun x => x
  count_num_transistors_individual := fun x => x
  set_parent := set_parent
  clone_parent := clone_parent 3
  apply_SAM := demo_mutation
  apply_SAM_plus_GAM := demo_mutation
  apply_PM := demo_mutation
  clear_population_active_genes := fun p => p
  find_population_active_genes := fun p => p
  find_optimized_individual := find_optimized_individual 3
  print_post_optimization_data := fun _ => []

/-- Demo helpers whose `sscanf` converts nothing, so that the selector stays 0. -/
def demo_helpers_unparsed : Helpers :=
  { demo_helpers with sscanf_d := fun _ _ => none }

/-- Demo helpers whose `sscanf` converts 8 for the budget and 1 for everything else. -/
def demo_helpers_funded : Helpers :=
  { demo_helpers with sscanf_d := fun _ fmt => if fmt = ("maxeval=%ld") then some 8 else some 1 }

/-- Demo helpers whose `sscanf` converts nothing and whose `fopen` always fails. -/
def demo_helpers_unparsed_locked : Helpers :=
  { demo_helpers with sscanf_d := fun _ _ => none, fopen := fun _ => false }

/-- Demo helpers whose `fopen` always fails. -/
def demo_helpers_locked : Helpers :=
  { demo_helpers with fopen := fun _ => false }

/-- A demo argument vector of `argc` entries, each the same placeholder text. -/
def demo_argv (argc : Nat) : List String := List.replicate argc ("arg")

/-- A demo memory: every slot scores 2 with 10 transistors, budget `maxeval`. -/
def demo_mem (maxeval : Int) : Mem where
  population := fun _ => ⟨2, 10, []⟩
  maxeval := maxeval
  NCOL := 4
  LB := 2
  table := ⟨2, 1, []⟩
  bdd := ⟨10, 100⟩
  rng := none
  out := []
  console := []

/-- A demo memory whose engine holds 7500014 nodes in a pool of 10000019. -/
def demo_mem_full : Mem :=
  { demo_mem 0 with bdd := ⟨7500014, 10000019⟩ }

/-- A demo active-gene pass for one individual: the transistor count is derived from the
genes, one transistor per gene. -/
def recount (x : Individual) : Individual :=
  { x with num_transistors := x.genes.length }

/-- A demo mutation operator for three slots that edits genes only: slot 1 drops the first
gene of the parent, slot 2 gets a worse score; stored transistor counts are left for the
active-gene pass to derive. -/
def recount_mutation (_ : List Int) (m : Mem) : Mem :=
  { m with maxeval := m.maxeval - 2,
           population := fun i =>
             if i = 0 then m.population 0
             else if i = 1 then { m.population 0 with genes := (m.population 0).genes.tail }
             else { m.population 0 with score := (m.population 0).score + 1 } }

/-- Demo helpers whose active-gene pass derives the transistor count of every individual. -/
def recount_helpers : Helpers :=
  { demo_helpers with apply_SAM := recount_mutation,
                      apply_SAM_plus_GAM := recount_mutation,
                      apply_PM := recount_mutation,
                      find_population_active_genes := fun p i => recount (p i) }

/-- A demo memory for `recount_helpers`: every slot is correct, with three genes and the
transistor count 3 derived from them. -/
def recount_mem (maxeval : Int) : Mem :=
  { demo_mem maxeval with population := fun _ => ⟨0, 3, [1, 1, 1]⟩ }

/-- A demo memory whose parent is correct: every slot scores 0 with 10 transistors. -/
def demo_mem_correct (maxeval : Int) : Mem :=
  { demo_mem maxeval with population := fun _ => ⟨0, 10, []⟩ }

/-! ## Facts about the resource guard -/

theorem int_cast_three_quarters (a : Int) :
    int_cast ((0.75 : ℚ) * (a : ℚ)) = Int.tdiv (3 * a) 4 := by
  have h075 : (0.75 : ℚ) = 3 / 4 := by norm_num
  have hq : (0.75 : ℚ) * (a : ℚ) = ((3 * a : ℤ) : ℚ) / ((4 : ℕ) : ℚ) := by
    rw [h075]; push_cast; ring
  unfold int_cast
  rw [hq]
  rcases le_or_lt 0 a with ha | ha
  · have hnn : (0 : ℚ) ≤ ((3 * a : ℤ) : ℚ) / ((4 : ℕ) : ℚ) := by
      have : (0:ℚ) ≤ ((3 * a : ℤ) : ℚ) := by exact_mod_cast (by omega : 0 ≤ 3 * a)
      positivity
    rw [if_pos hnn, Rat.floor_intCast_div_natCast,
      Int.tdiv_eq_ediv (by omega) (by norm_num)]
    norm_num
  · have hneg : ¬ (0 : ℚ) ≤ ((3 * a : ℤ) : ℚ) / ((4 : ℕ) : ℚ) := by
      have : ((3 * a : ℤ) : ℚ) < 0 := by exact_mod_cast (by omega : 3 * a < 0)
      rw [not_le]
      exact div_neg_of_neg_of_pos this (by norm_num)
    rw [if_neg hneg]
    have hc : ⌈((3 * a : ℤ) : ℚ) / ((4 : ℕ) : ℚ)⌉ =
        -⌊((-(3 * a) : ℤ) : ℚ) / ((4 : ℕ) : ℚ)⌋ := by
      rw [← Int.ceil_neg]; congr 1; push_cast; ring
    rw [hc, Rat.floor_intCast_div_natCast]
    have h1 : (3 * a).tdiv 4 = -((-(3 * a)).tdiv 4) := by rw [Int.neg_tdiv]; ring
    rw [h1, Int.tdiv_eq_ediv (by omega) (by norm_num)]
    norm_num

@[simp]
theorem resource_guard_population (h : Helpers) (m : Mem) :
    (resource_guard h m).population = m.population := by
  unfold resource_guard; split <;> rfl

@[simp]
theorem resource_guard_maxeval (h : Helpers) (m : Mem) :
    (resource_guard h m).maxeval = m.maxeval := by
  unfold resource_guard; split <;> rfl

@[simp]
theorem resource_guard_out (h : Helpers) (m : Mem) :
    (resource_guard h m).out = m.out := by
  unfold resource_guard; split <;> rfl

/-- C7, the claim as stated fails: with 7500014 nodes in a pool of 10000019 the test of lines
92 and 158 holds, a collection is run, and yet `4 * n >= 3 * a` is false. -/
theorem gc_test_below_three_quarters :
    ¬ (gc_test 7500014 10000019 = true ↔ (4 : Int) * 7500014 ≥ 3 * 10000019) := by
  decide

/-- C7, amended: on the readings `n` and `a` of a memory the guard runs `bdd_gbc` exactly
when `n >= (int)(0.75 * a)`, the product truncated toward zero; for `a >= 0` that is exactly
`3 * a <= 4 * n + 3`.  Occupancy at or above three quarters (`4 * n >= 3 * a`) always
triggers the collection. -/
theorem gc_test_truncated (h : Helpers) (m : Mem) (hpos : 0 ≤ m.bdd.allocnum) :
    (gc_test m.bdd.nodenum m.bdd.allocnum =
      decide (m.bdd.nodenum ≥ int_cast ((0.75 : ℚ) * (m.bdd.allocnum : ℚ)))) ∧
    (gc_test m.bdd.nodenum m.bdd.allocnum = true ↔
      3 * m.bdd.allocnum ≤ 4 * m.bdd.nodenum + 3) ∧
    (4 * m.bdd.nodenum ≥ 3 * m.bdd.allocnum → gc_test m.bdd.nodenum m.bdd.allocnum = true) ∧
    (resource_guard h m =
      if 3 * m.bdd.allocnum ≤ 4 * m.bdd.nodenum + 3 then { m with bdd := h.bdd_gbc m.bdd }
      else m) := by
  have hiff : gc_test m.bdd.nodenum m.bdd.allocnum = true ↔
      3 * m.bdd.allocnum ≤ 4 * m.bdd.nodenum + 3 := by
    unfold gc_test
    rw [decide_eq_true_iff, Int.tdiv_eq_ediv (by omega) (by norm_num)]
    omega
  refine ⟨?_, hiff, fun hge => hiff.2 (by omega), ?_⟩
  · rw [int_cast_three_quarters]; rfl
  · unfold resource_guard
    by_cases ht : gc_test m.bdd.nodenum m.bdd.allocnum = true
    · rw [if_pos ht, if_pos (hiff.1 ht)]
    · rw [if_neg ht, if_neg (fun hc => ht (hiff.2 hc))]

theorem gc_test_truncated_witness :
    (0 : Int) ≤ (demo_mem_full).bdd.allocnum ∧
    ((gc_test demo_mem_full.bdd.nodenum demo_mem_full.bdd.allocnum =
      decide (demo_mem_full.bdd.nodenum ≥
        int_cast ((0.75 : ℚ) * (demo_mem_full.bdd.allocnum : ℚ)))) ∧
    (gc_test demo_mem_full.bdd.nodenum demo_mem_full.bdd.allocnum = true ↔
      3 * demo_mem_full.bdd.allocnum ≤ 4 * demo_mem_full.bdd.nodenum + 3) ∧
    (4 * demo_mem_full.bdd.nodenum ≥ 3 * demo_mem_full.bdd.allocnum →
      gc_test demo_mem_full.bdd.nodenum demo_mem_full.bdd.allocnum = true) ∧
    (resource_guard demo_helpers demo_mem_full =
      if 3 * demo_mem_full.bdd.allocnum ≤ 4 * demo_mem_full.bdd.nodenum + 3
      then { demo_mem_full with bdd := demo_helpers.bdd_gbc demo_mem_full.bdd }
      else demo_mem_full)) :=
  ⟨by decide, gc_test_truncated demo_helpers demo_mem_full (by decide)⟩

/-! ## Facts about the Phase I loop -/

theorem evolves_loop_succ (h : Helpers) (mutation : Int) (fuel : Nat) (m : Mem) :
    evolves_loop h mutation (fuel + 1) m =
      if ((evolves_promote h mutation m).1.population 0).score = 0 then
        ⟨[(evolves_promote h mutation m).1], some (1,
          { (evolves_promote h mutation m).1 with
            out := (evolves_promote h mutation m).1.out ++
              [Line.sat_count ((evolves_promote h mutation m).1.population 0).score
                (evolves_promote h mutation m).2 (evolves_promote h mutation m).1.maxeval] ++
              [Line.separator] ++
              h.print_post_optimization_data ((evolves_promote h mutation m).1.population 0) })⟩
      else if (evolves_promote h mutation m).1.maxeval - ((h.NPOP : Int) - 1) < 0 then
        ⟨[(evolves_promote h mutation m).1], some (0,
          { resource_guard h (evolves_promote h mutation m).1 with
            out := (evolves_promote h mutation m).1.out ++
              [Line.sat_count ((evolves_promote h mutation m).1.population 0).score
                (evolves_promote h mutation m).2 (evolves_promote h mutation m).1.maxeval] })⟩
      else
        ⟨(evolves_promote h mutation m).1 ::
          (evolves_loop h mutation fuel (evolves_next h mutation m)).gens,
          (evolves_loop h mutation fuel (evolves_next h mutation m)).result⟩ := by
  simp only [evolves_loop, resource_guard_population, resource_guard_maxeval,
    resource_guard_out]

theorem evolves_loop_return (h : Helpers) (mutation : Int) :
    ∀ (fuel : Nat) (m : Mem) (r : Int) (m' : Mem),
      (evolves_loop h mutation fuel m).result = some (r, m') →
      ∃ w, (evolves_loop h mutation fuel m).gens.getLast? = some w ∧
        w.population = m'.population ∧ w.maxeval = m'.maxeval ∧
        ((r = 1 ∧ (w.population 0).score = 0) ∨
         (r = 0 ∧ (w.population 0).score ≠ 0 ∧ w.maxeval - ((h.NPOP : Int) - 1) < 0)) := by
  intro fuel
  induction fuel with
  | zero => intro m r m' hret; simp [evolves_loop] at hret
  | succ fuel ih =>
    intro m r m' hret
    rw [evolves_loop_succ] at hret ⊢
    split_ifs at hret ⊢ with hs hb
    · simp only [Option.some.injEq, Prod.mk.injEq] at hret
      obtain ⟨hr, hm⟩ := hret
      subst hr; subst hm
      exact ⟨_, rfl, rfl, rfl, Or.inl ⟨rfl, hs⟩⟩
    · simp only [Option.some.injEq, Prod.mk.injEq] at hret
      obtain ⟨hr, hm⟩ := hret
      subst hr; subst hm
      exact ⟨_, rfl, by simp, by simp, Or.inr ⟨rfl, hs, hb⟩⟩
    · obtain ⟨w, hw, hrest⟩ := ih _ r m' hret
      refine ⟨w, ?_, hrest⟩
      simp only
      rw [List.getLast?_cons, hw]
      rfl

/-- C3: when `evolves_cgp_bdd` returns `r`, the last promoted winner `w` decides it: `r = 1`
exactly when the score in slot 0 is 0, and `r = 0` exactly when that score is non-zero and
`maxeval - (NPOP - 1) < 0`.  A generation whose winner scores 0 returns 1 whatever the
budget; a generation whose winner scores non-zero with budget left runs the loop again from
the memory in which, after the resource guard, `clone_parent` has been applied to the
population. -/
theorem evolves_cgp_bdd_return_value (h : Helpers) (mutation : Int) (fuel : Nat) (m : Mem)
    (r : Int) (m' : Mem) (hret : (evolves_cgp_bdd h mutation fuel m).result = some (r, m')) :
    (∃ w, (evolves_cgp_bdd h mutation fuel m).gens.getLast? = some w ∧
      w.population = m'.population ∧ w.maxeval = m'.maxeval ∧
      (r = 1 ↔ (w.population 0).score = 0) ∧
      (r = 0 ↔ ((w.population 0).score ≠ 0 ∧ w.maxeval - ((h.NPOP : Int) - 1) < 0))) ∧
    (∀ (n : Nat) (s : Mem), ((evolves_promote h mutation s).1.population 0).score = 0 →
      (evolves_loop h mutation (n + 1) s).gens = [(evolves_promote h mutation s).1] ∧
      ∃ s', (evolves_loop h mutation (n + 1) s).result = some (1, s')) ∧
    (∀ (n : Nat) (s : Mem), ((evolves_promote h mutation s).1.population 0).score ≠ 0 →
      ¬ ((evolves_promote h mutation s).1.maxeval - ((h.NPOP : Int) - 1) < 0) →
      (evolves_loop h mutation (n + 1) s).gens = (evolves_promote h mutation s).1 ::
        (evolves_loop h mutation n (evolves_next h mutation s)).gens ∧
      (evolves_loop h mutation (n + 1) s).result =
        (evolves_loop h mutation n (evolves_next h mutation s)).result) ∧
    (∀ s : Mem, evolves_next h mutation s =
      { resource_guard h (evolves_promote h mutation s).1 with
        population := h.clone_parent (evolves_promote h mutation s).1.population }) := by
  refine ⟨?_, ?_, ?_, ?_⟩
  · obtain ⟨w, hw, hp, hmx, hcase⟩ := evolves_loop_return h mutation fuel _ r m' hret
    refine ⟨w, hw, hp, hmx, ?_, ?_⟩
    · constructor
      · intro hr
        rcases hcase with ⟨_, hs⟩ | ⟨hr0, _, _⟩
        · exact hs
        · omega
      · intro hs
        rcases hcase with ⟨hr1, _⟩ | ⟨_, hns, _⟩
        · exact hr1
        · exact absurd hs hns
    · constructor
      · intro hr
        rcases hcase with ⟨hr1, _⟩ | ⟨_, hns, hb⟩
        · omega
        · exact ⟨hns, hb⟩
      · rintro ⟨hns, _⟩
        rcases hcase with ⟨_, hs⟩ | ⟨hr0, _, _⟩
        · exact absurd hs hns
        · exact hr0
  · intro n s hs
    rw [evolves_loop_succ, if_pos hs]
    exact ⟨rfl, _, rfl⟩
  · intro n s hs hb
    rw [evolves_loop_succ, if_neg hs, if_neg hb]
    exact ⟨rfl, rfl⟩
  · intro s
    simp [evolves_next]

theorem evolves_cgp_bdd_return_value_witness :
    ((evolves_cgp_bdd demo_helpers 1 10 (demo_mem 100)).result = some (1,
        ((evolves_cgp_bdd demo_helpers 1 10 (demo_mem 100)).result.getD (0, demo_mem 0)).2)) ∧
    ((∃ w, (evolves_cgp_bdd demo_helpers 1 10 (demo_mem 100)).gens.getLast? = some w ∧
      w.population =
        ((evolves_cgp_bdd demo_helpers 1 10 (demo_mem 100)).result.getD
          (0, demo_mem 0)).2.population ∧
      w.maxeval =
        ((evolves_cgp_bdd demo_helpers 1 10 (demo_mem 100)).result.getD
          (0, demo_mem 0)).2.maxeval ∧
      ((1 : Int) = 1 ↔ (w.population 0).score = 0) ∧
      ((1 : Int) = 0 ↔
        ((w.population 0).score ≠ 0 ∧ w.maxeval - ((demo_helpers.NPOP : Int) - 1) < 0))) ∧
    (∀ (n : Nat) (s : Mem), ((evolves_promote demo_helpers 1 s).1.population 0).score = 0 →
      (evolves_loop demo_helpers 1 (n + 1) s).gens = [(evolves_promote demo_helpers 1 s).1] ∧
      ∃ s', (evolves_loop demo_helpers 1 (n + 1) s).result = some (1, s')) ∧
    (∀ (n : Nat) (s : Mem), ((evolves_promote demo_helpers 1 s).1.population 0).score ≠ 0 →
      ¬ ((evolves_promote demo_helpers 1 s).1.maxeval -
          ((demo_helpers.NPOP : Int) - 1) < 0) →
      (evolves_loop demo_helpers 1 (n + 1) s).gens = (evolves_promote demo_helpers 1 s).1 ::
        (evolves_loop demo_helpers 1 n (evolves_next demo_helpers 1 s)).gens ∧
      (evolves_loop demo_helpers 1 (n + 1) s).result =
        (evolves_loop demo_helpers 1 n (evolves_next demo_helpers 1 s)).result) ∧
    (∀ s : Mem, evolves_next demo_helpers 1 s =
      { resource_guard demo_helpers (evolves_promote demo_helpers 1 s).1 with
        population :=
          demo_helpers.clone_parent (evolves_promote demo_helpers 1 s).1.population })) :=
  ⟨rfl, evolves_cgp_bdd_return_value demo_helpers 1 10 (demo_mem 100) 1 _ rfl⟩

/-! ## Facts about the Phase II loop -/

theorem optimize_loop_succ (h : Helpers) (mutation : Int) (fuel : Nat) (m : Mem) :
    optimize_loop h mutation (fuel + 1) m =
      if (optimize_promote h mutation m).1.maxeval - ((h.NPOP : Int) - 1) < 0 then
        ⟨[(optimize_promote h mutation m).1], some
          { resource_guard h (optimize_promote h mutation m).1 with
            out := (optimize_promote h mutation m).1.out ++
              [Line.num_transistors
                ((optimize_promote h mutation m).1.population 0).num_transistors
                (optimize_promote h mutation m).2 (optimize_promote h mutation m).1.maxeval,
              Line.separator] ++
              h.print_post_optimization_data
                ((optimize_promote h mutation m).1.population 0) }⟩
      else
        ⟨(optimize_promote h mutation m).1 ::
          (optimize_loop h mutation fuel (optimize_next h mutation m)).gens,
          (optimize_loop h mutation fuel (optimize_next h mutation m)).result⟩ := by
  simp only [optimize_loop, resource_guard_population, resource_guard_maxeval,
    resource_guard_out]

@[simp]
theorem optimize_promote_maxeval (h : Helpers) (mutation : Int) (m : Mem) :
    (optimize_promote h mutation m).1.maxeval = (mutate h mutation m).maxeval := rfl

@[simp]
theorem optimize_next_maxeval (h : Helpers) (mutation : Int) (m : Mem) :
    (optimize_next h mutation m).maxeval = (mutate h mutation m).maxeval := by
  simp [optimize_next]

@[simp]
theorem optimize_next_population (h : Helpers) (mutation : Int) (m : Mem) :
    (optimize_next h mutation m).population =
      h.clone_parent (optimize_promote h mutation m).1.population := by
  simp [optimize_next]

theorem optimize_loop_return (h : Helpers) (mutation : Int) :
    ∀ (fuel : Nat) (m m' : Mem), (optimize_loop h mutation fuel m).result = some m' →
      ∃ w, (optimize_loop h mutation fuel m).gens.getLast? = some w ∧
        w.population = m'.population ∧ w.maxeval = m'.maxeval ∧
        w.maxeval - ((h.NPOP : Int) - 1) < 0 := by
  intro fuel
  induction fuel with
  | zero => intro m m' hret; simp [optimize_loop] at hret
  | succ fuel ih =>
    intro m m' hret
    rw [optimize_loop_succ] at hret ⊢
    split_ifs at hret ⊢ with hb
    · simp only [Option.some.injEq] at hret
      subst hret
      exact ⟨_, rfl, by simp, by simp, hb⟩
    · obtain ⟨w, hw, hrest⟩ := ih _ m' hret
      refine ⟨w, ?_, hrest⟩
      simp only
      rw [List.getLast?_cons, hw]
      rfl

/-- The number of generations Phase II runs from budget `M` with `k` evaluations per
generation, and the budget it leaves, for enough fuel. -/
theorem optimize_loop_count (h : Helpers) (mutation : Int) (hN : 1 < h.NPOP)
    (hdec : ∀ s, (mutate h mutation s).maxeval = s.maxeval - ((h.NPOP : Int) - 1)) :
    ∀ (fuel : Nat) (m : Mem), max 1 (m.maxeval / ((h.NPOP : Int) - 1)) ≤ (fuel : Int) →
      ∃ m', (optimize_loop h mutation fuel m).result = some m' ∧
        ((optimize_loop h mutation fuel m).gens.length : Int) =
          max 1 (m.maxeval / ((h.NPOP : Int) - 1)) ∧
        m'.maxeval = m.maxeval - max 1 (m.maxeval / ((h.NPOP : Int) - 1)) *
          ((h.NPOP : Int) - 1) := by
  have hk : (0 : Int) < (h.NPOP : Int) - 1 := by omega
  generalize hkdef : (h.NPOP : Int) - 1 = k at hk hdec ⊢
  intro fuel
  induction fuel with
  | zero =>
    intro m hfuel
    have : (1 : Int) ≤ max 1 (m.maxeval / k) := le_max_left _ _
    simp only [Nat.cast_zero] at hfuel
    omega
  | succ fuel ih =>
    intro m hfuel
    rw [optimize_loop_succ, hkdef]
    simp only [optimize_promote_maxeval, hdec]
    by_cases hb : m.maxeval - k - k < 0
    · rw [if_pos hb]
      have hq : m.maxeval / k ≤ 1 := by
        have : m.maxeval / k < 2 := Int.ediv_lt_of_lt_mul hk (by linarith)
        omega
      have hmax : max 1 (m.maxeval / k) = 1 := max_eq_left hq
      refine ⟨_, rfl, ?_, ?_⟩
      · simp [hmax]
      · simp only [resource_guard_maxeval, optimize_promote_maxeval, hdec, hmax]
        ring
    · rw [if_neg hb]
      have hge : 2 * k ≤ m.maxeval := by linarith
      have hq2 : 2 ≤ m.maxeval / k := Int.le_ediv_of_mul_le hk (by linarith)
      have hsub : (m.maxeval - k) / k = m.maxeval / k - 1 := by
        have : m.maxeval - k = m.maxeval + k * (-1) := by ring
        rw [this, Int.add_mul_ediv_left _ _ (ne_of_gt hk)]
        ring
      have hmax : max 1 (m.maxeval / k) = m.maxeval / k := max_eq_right (by omega)
      have hmax2 : max 1 ((m.maxeval - k) / k) = m.maxeval / k - 1 := by
        rw [hsub]; exact max_eq_right (by omega)
      have hnext : (optimize_next h mutation m).maxeval = m.maxeval - k := by
        simp only [optimize_next_maxeval, hdec]
      obtain ⟨m', hres, hlen, hfin⟩ := ih (optimize_next h mutation m)
        (by rw [hnext, hmax2]; rw [hmax] at hfuel; push_cast at hfuel; omega)
      refine ⟨m', hres, ?_, ?_⟩
      · simp only [List.length_cons, Nat.cast_add, Nat.cast_one]
        rw [hlen, hnext, hmax2, hmax]; ring
      · rw [hfin, hnext, hmax2, hmax]; ring

@[simp]
theorem evolves_promote_maxeval (h : Helpers) (mutation : Int) (m : Mem) :
    (evolves_promote h mutation m).1.maxeval = (mutate h mutation m).maxeval := rfl

theorem optimize_loop_head (h : Helpers) (mutation : Int) (n : Nat) (s : Mem) :
    ∃ rest, (optimize_loop h mutation (n + 1) s).gens =
      (optimize_promote h mutation s).1 :: rest := by
  rw [optimize_loop_succ]
  split_ifs
  · exact ⟨[], rfl⟩
  · exact ⟨_, rfl⟩

theorem evolves_loop_head (h : Helpers) (mutation : Int) (n : Nat) (s : Mem) :
    ∃ rest, (evolves_loop h mutation (n + 1) s).gens =
      (evolves_promote h mutation s).1 :: rest := by
  rw [evolves_loop_succ]
  split_ifs
  · exact ⟨[], rfl⟩
  · exact ⟨[], rfl⟩
  · exact ⟨_, rfl⟩

/-- C8: `optimize_circuit` leaves its loop only after a generation with
`maxeval - (NPOP - 1) < 0`: a returned run ends on such a generation, a generation with
budget left always clones and continues whatever scores and transistor counts are, and a
generation without budget left always ends the loop.  With `NPOP > 1` and a mutation operator
that takes `NPOP - 1` off `maxeval`, the loop is left from every start. -/
theorem optimize_circuit_budget_only_exit (h : Helpers) (mutation : Int) (hN : 1 < h.NPOP)
    (hdec : ∀ s, (mutate h mutation s).maxeval = s.maxeval - ((h.NPOP : Int) - 1)) :
    (∀ (fuel : Nat) (m m' : Mem), (optimize_circuit h mutation fuel m).result = some m' →
      ∃ w, (optimize_circuit h mutation fuel m).gens.getLast? = some w ∧
        w.population = m'.population ∧ w.maxeval = m'.maxeval ∧
        w.maxeval - ((h.NPOP : Int) - 1) < 0) ∧
    (∀ (n : Nat) (s : Mem),
      ¬ ((optimize_promote h mutation s).1.maxeval - ((h.NPOP : Int) - 1) < 0) →
      (optimize_loop h mutation (n + 1) s).gens = (optimize_promote h mutation s).1 ::
        (optimize_loop h mutation n (optimize_next h mutation s)).gens ∧
      (optimize_loop h mutation (n + 1) s).result =
        (optimize_loop h mutation n (optimize_next h mutation s)).result) ∧
    (∀ (n : Nat) (s : Mem),
      (optimize_promote h mutation s).1.maxeval - ((h.NPOP : Int) - 1) < 0 →
      (optimize_loop h mutation (n + 1) s).gens = [(optimize_promote h mutation s).1] ∧
      ∃ s', (optimize_loop h mutation (n + 1) s).result = some s') ∧
    (∀ m : Mem, ∃ (fuel : Nat) (m' : Mem),
      (optimize_circuit h mutation fuel m).result = some m') := by
  refine ⟨?_, ?_, ?_, ?_⟩
  · intro fuel m m' hret
    exact optimize_loop_return h mutation fuel _ m' hret
  · intro n s hb
    rw [optimize_loop_succ, if_neg hb]
    exact ⟨rfl, rfl⟩
  · intro n s hb
    rw [optimize_loop_succ, if_pos hb]
    exact ⟨rfl, _, rfl⟩
  · intro m
    refine ⟨(max 1 (m.maxeval / ((h.NPOP : Int) - 1))).toNat, ?_⟩
    obtain ⟨m', hres, _⟩ := optimize_loop_count h mutation hN hdec
      (max 1 (m.maxeval / ((h.NPOP : Int) - 1))).toNat
      { m with out := m.out ++ [Line.separator] }
      (by
        have h1 : (1 : Int) ≤ max 1 (m.maxeval / ((h.NPOP : Int) - 1)) := le_max_left _ _
        rw [Int.toNat_of_nonneg (by omega)])
    exact ⟨m', hres⟩

theorem optimize_circuit_budget_only_exit_witness :
    (1 < demo_helpers.NPOP) ∧
    (∀ s, (mutate demo_helpers 1 s).maxeval = s.maxeval - ((demo_helpers.NPOP : Int) - 1)) ∧
    ((∀ (fuel : Nat) (m m' : Mem), (optimize_circuit demo_helpers 1 fuel m).result = some m' →
      ∃ w, (optimize_circuit demo_helpers 1 fuel m).gens.getLast? = some w ∧
        w.population = m'.population ∧ w.maxeval = m'.maxeval ∧
        w.maxeval - ((demo_helpers.NPOP : Int) - 1) < 0) ∧
    (∀ (n : Nat) (s : Mem),
      ¬ ((optimize_promote demo_helpers 1 s).1.maxeval - ((demo_helpers.NPOP : Int) - 1) < 0) →
      (optimize_loop demo_helpers 1 (n + 1) s).gens = (optimize_promote demo_helpers 1 s).1 ::
        (optimize_loop demo_helpers 1 n (optimize_next demo_helpers 1 s)).gens ∧
      (optimize_loop demo_helpers 1 (n + 1) s).result =
        (optimize_loop demo_helpers 1 n (optimize_next demo_helpers 1 s)).result) ∧
    (∀ (n : Nat) (s : Mem),
      (optimize_promote demo_helpers 1 s).1.maxeval - ((demo_helpers.NPOP : Int) - 1) < 0 →
      (optimize_loop demo_helpers 1 (n + 1) s).gens = [(optimize_promote demo_helpers 1 s).1] ∧
      ∃ s', (optimize_loop demo_helpers 1 (n + 1) s).result = some s') ∧
    (∀ m : Mem, ∃ (fuel : Nat) (m' : Mem),
      (optimize_circuit demo_helpers 1 fuel m).result = some m')) :=
  ⟨by decide, fun _ => rfl,
    optimize_circuit_budget_only_exit demo_helpers 1 (by decide) (fun _ => rfl)⟩

/-- C10: with `NPOP > 1`, a mutation operator that takes `k = NPOP - 1` off `maxeval` and a
start budget `M >= 0`, `optimize_circuit` runs exactly `max 1 (M / k)` generations and
leaves `M - max 1 (M / k) * k`; with `M < k` it still runs one generation and leaves the
negative budget `M - k`.  In both phases the first generation is run before any budget
test: its mutation has already been charged. -/
theorem optimize_circuit_generation_count (h : Helpers) (mutation : Int) (m : Mem)
    (hN : 1 < h.NPOP)
    (hdec : ∀ s, (mutate h mutation s).maxeval = s.maxeval - ((h.NPOP : Int) - 1))
    (hM : 0 ≤ m.maxeval) :
    (∀ fuel : Nat, max 1 (m.maxeval / ((h.NPOP : Int) - 1)) ≤ (fuel : Int) →
      ∃ m', (optimize_circuit h mutation fuel m).result = some m' ∧
        ((optimize_circuit h mutation fuel m).gens.length : Int) =
          max 1 (m.maxeval / ((h.NPOP : Int) - 1)) ∧
        m'.maxeval = m.maxeval -
          max 1 (m.maxeval / ((h.NPOP : Int) - 1)) * ((h.NPOP : Int) - 1)) ∧
    (m.maxeval < (h.NPOP : Int) - 1 →
      ∃ m', (optimize_circuit h mutation 1 m).result = some m' ∧
        (optimize_circuit h mutation 1 m).gens.length = 1 ∧
        m'.maxeval = m.maxeval - ((h.NPOP : Int) - 1) ∧ m'.maxeval < 0) ∧
    (∀ n : Nat, ∃ w rest, (optimize_circuit h mutation (n + 1) m).gens = w :: rest ∧
      w.maxeval = m.maxeval - ((h.NPOP : Int) - 1)) ∧
    (∀ n : Nat, ∃ w rest, (evolves_cgp_bdd h mutation (n + 1) m).gens = w :: rest ∧
      w.maxeval = (evolves_prologue h m).maxeval - ((h.NPOP : Int) - 1)) := by
  have hcount := optimize_loop_count h mutation hN hdec
  refine ⟨?_, ?_, ?_, ?_⟩
  · intro fuel hfuel
    exact hcount fuel { m with out := m.out ++ [Line.separator] } hfuel
  · intro hlt
    have hk : (0 : Int) < (h.NPOP : Int) - 1 := by omega
    have hq : m.maxeval / ((h.NPOP : Int) - 1) = 0 := Int.ediv_eq_zero_of_lt hM hlt
    have hmax : max 1 (m.maxeval / ((h.NPOP : Int) - 1)) = 1 := by rw [hq]; rfl
    obtain ⟨m', hres, hlen, hfin⟩ := hcount 1 { m with out := m.out ++ [Line.separator] }
      (by simp only [hmax]; norm_num)
    simp only [hmax] at hlen hfin
    refine ⟨m', hres, by exact_mod_cast hlen, by rw [hfin]; ring, ?_⟩
    rw [hfin]
    linarith
  · intro n
    obtain ⟨rest, hrest⟩ := optimize_loop_head h mutation n
      { m with out := m.out ++ [Line.separator] }
    exact ⟨_, rest, hrest, by rw [optimize_promote_maxeval, hdec]⟩
  · intro n
    obtain ⟨rest, hrest⟩ := evolves_loop_head h mutation n (evolves_prologue h m)
    exact ⟨_, rest, hrest, by rw [evolves_promote_maxeval, hdec]⟩

theorem optimize_circuit_generation_count_witness :
    (1 < demo_helpers.NPOP) ∧
    (∀ s, (mutate demo_helpers 1 s).maxeval = s.maxeval - ((demo_helpers.NPOP : Int) - 1)) ∧
    (0 ≤ (demo_mem_correct 1).maxeval) ∧
    ((∀ fuel : Nat, max 1 ((demo_mem_correct 1).maxeval / ((demo_helpers.NPOP : Int) - 1)) ≤ (fuel : Int) →
      ∃ m', (optimize_circuit demo_helpers 1 fuel (demo_mem_correct 1)).result = some m' ∧
        ((optimize_circuit demo_helpers 1 fuel (demo_mem_correct 1)).gens.length : Int) =
          max 1 ((demo_mem_correct 1).maxeval / ((demo_helpers.NPOP : Int) - 1)) ∧
        m'.maxeval = (demo_mem_correct 1).maxeval -
          max 1 ((demo_mem_correct 1).maxeval / ((demo_helpers.NPOP : Int) - 1)) * ((demo_helpers.NPOP : Int) - 1)) ∧
    ((demo_mem_correct 1).maxeval < (demo_helpers.NPOP : Int) - 1 →
      ∃ m', (optimize_circuit demo_helpers 1 1 (demo_mem_correct 1)).result = some m' ∧
        (optimize_circuit demo_helpers 1 1 (demo_mem_correct 1)).gens.length = 1 ∧
        m'.maxeval = (demo_mem_correct 1).maxeval - ((demo_helpers.NPOP : Int) - 1) ∧ m'.maxeval < 0) ∧
    (∀ n : Nat, ∃ w rest, (optimize_circuit demo_helpers 1 (n + 1) (demo_mem_correct 1)).gens = w :: rest ∧
      w.maxeval = (demo_mem_correct 1).maxeval - ((demo_helpers.NPOP : Int) - 1)) ∧
    (∀ n : Nat, ∃ w rest, (evolves_cgp_bdd demo_helpers 1 (n + 1) (demo_mem_correct 1)).gens = w :: rest ∧
      w.maxeval = (evolves_prologue demo_helpers (demo_mem_correct 1)).maxeval - ((demo_helpers.NPOP : Int) - 1))) :=
  ⟨by decide, fun _ => rfl, by decide,
    optimize_circuit_generation_count demo_helpers 1 (demo_mem_correct 1) (by decide)
      (fun _ => rfl) (by decide)⟩

/-! ## Facts about the Phase II selection -/

theorem find_optimized_upto_parent (population : Nat → Individual)
    (h0 : (population 0).score = 0) :
    ∀ n, ∃ j, find_optimized_upto population (n + 1) = some j ∧
      (population j).score = 0 ∧
      (population j).num_transistors ≤ (population 0).num_transistors := by
  intro n
  induction n with
  | zero => exact ⟨0, by simp [find_optimized_upto, h0], h0, le_refl _⟩
  | succ n ih =>
    obtain ⟨j, hj, hs, ht⟩ := ih
    rw [find_optimized_upto, hj]
    by_cases hc : (population (n + 1)).score = 0 ∧
        (population (n + 1)).num_transistors ≤ (population j).num_transistors
    · exact ⟨n + 1, by simp [hc], hc.1, le_trans hc.2 ht⟩
    · exact ⟨j, by simp [hc], hs, ht⟩

theorem find_optimized_individual_parent (NPOP : Nat) (population : Nat → Individual)
    (h0 : (population 0).score = 0) :
    (population (find_optimized_individual NPOP population)).score = 0 ∧
    (population (find_optimized_individual NPOP population)).num_transistors ≤
      (population 0).num_transistors := by
  unfold find_optimized_individual
  cases NPOP with
  | zero => simp [find_optimized_upto, h0]
  | succ n =>
    obtain ⟨j, hj, hs, ht⟩ := find_optimized_upto_parent population h0 n
    rw [hj]
    exact ⟨hs, ht⟩

theorem optimize_promote_spec_parent (h : Helpers) (mutation : Int) (s : Mem) :
    (optimize_promote (spec_helpers h) mutation s).1.population 0 =
      (h.find_population_active_genes
        (h.clear_population_active_genes (mutate h mutation s).population))
      (find_optimized_individual h.NPOP (h.find_population_active_genes
        (h.clear_population_active_genes (mutate h mutation s).population))) := rfl

theorem chain_of_parent_eq (R : Individual → Individual → Prop) (a b : Mem)
    (hab : a.population 0 = b.population 0) (l : List Mem)
    (hc : List.Chain (fun x y => R (x.population 0) (y.population 0)) a l) :
    List.Chain (fun x y => R (x.population 0) (y.population 0)) b l := by
  cases hc with
  | nil => exact List.Chain.nil
  | cons hr hrest => exact List.Chain.cons (hab ▸ hr) hrest

/-- The Phase II loop keeps a property `P` of the parent and relates consecutive parents by
`R`, once one generation does so and `clone_parent` leaves slot 0 alone. -/
theorem optimize_loop_chain (H : Helpers) (mutation : Int) (P : Individual → Prop)
    (R : Individual → Individual → Prop) (hclone : ∀ p, H.clone_parent p 0 = p 0)
    (step : ∀ s, P (s.population 0) →
      P ((optimize_promote H mutation s).1.population 0) ∧
      R (s.population 0) ((optimize_promote H mutation s).1.population 0)) :
    ∀ (fuel : Nat) (m : Mem), P (m.population 0) →
      List.Chain (fun x y => (fun a b => P b ∧ R a b) (x.population 0) (y.population 0)) m
        (optimize_loop H mutation fuel m).gens := by
  intro fuel
  induction fuel with
  | zero => intro m _; simp [optimize_loop]
  | succ fuel ih =>
    intro m hP
    obtain ⟨hP2, hR⟩ := step m hP
    rw [optimize_loop_succ]
    split_ifs with hb
    · exact List.Chain.cons ⟨hP2, hR⟩ List.Chain.nil
    · refine List.Chain.cons ⟨hP2, hR⟩ ?_
      have hnext := ih (optimize_next H mutation m) (by simpa [hclone] using hP2)
      exact chain_of_parent_eq (fun a b => P b ∧ R a b) _ _ (by simp [hclone]) _ hnext

theorem chain_forall_mem (R : Mem → Mem → Prop) (Q : Mem → Prop)
    (hQ : ∀ a b, R a b → Q b) : ∀ (l : List Mem) (a : Mem), List.Chain R a l →
      ∀ s ∈ l, Q s := by
  intro l
  induction l with
  | nil => intro a _ s hs; simp at hs
  | cons b l ih =>
    intro a hc s hs
    cases hc with
    | cons hr hrest =>
      rcases List.mem_cons.1 hs with hsb | hsl
      · subst hsb; exact hQ _ _ hr
      · exact ih b hrest s hsl

@[simp]
theorem spec_helpers_clone_parent_zero (h : Helpers) (p : Nat → Individual) :
    (spec_helpers h).clone_parent p 0 = p 0 := by
  simp [spec_helpers, clone_parent]

/-- C5: with the Phase II selection of the spec, a mutation operator that leaves the score of
the parent slot alone and an active-gene recomputation that does the same, a run of
`optimize_circuit` entered with `population[0].score = 0` has `population[0].score = 0`
after the promotion of every generation. -/
theorem optimize_circuit_parent_score_absorbing (h : Helpers) (mutation : Int) (fuel : Nat)
    (m : Mem)
    (hmut : ∀ s, ((mutate h mutation s).population 0).score = (s.population 0).score)
    (hact : ∀ p, (h.find_population_active_genes (h.clear_population_active_genes p) 0).score =
      (p 0).score)
    (h0 : (m.population 0).score = 0) :
    ∀ s ∈ (optimize_circuit (spec_helpers h) mutation fuel m).gens,
      (s.population 0).score = 0 := by
  have hchain := optimize_loop_chain (spec_helpers h) mutation (fun x => x.score = 0)
    (fun _ _ => True) (spec_helpers_clone_parent_zero h)
    (by
      intro s hs
      refine ⟨?_, trivial⟩
      rw [optimize_promote_spec_parent]
      exact (find_optimized_individual_parent h.NPOP _
        (by rw [hact, hmut]; exact hs)).1)
    fuel { m with out := m.out ++ [Line.separator] } h0
  exact chain_forall_mem _ (fun s => (s.population 0).score = 0) (fun _ _ hr => hr.1) _ _ hchain

theorem optimize_circuit_parent_score_absorbing_witness :
    (∀ s, ((mutate demo_helpers 1 s).population 0).score = (s.population 0).score) ∧
    (∀ p, (demo_helpers.find_population_active_genes
      (demo_helpers.clear_population_active_genes p) 0).score = (p 0).score) ∧
    ((demo_mem_correct 7).population 0).score = 0 ∧
    (∀ s ∈ (optimize_circuit (spec_helpers demo_helpers) 1 5 (demo_mem_correct 7)).gens,
      (s.population 0).score = 0) :=
  ⟨fun _ => rfl, fun _ => rfl, rfl,
    optimize_circuit_parent_score_absorbing demo_helpers 1 5 (demo_mem_correct 7)
      (fun _ => rfl) (fun _ => rfl) rfl⟩

theorem recount_phase_two_run :
    (optimize_circuit (spec_helpers recount_helpers) 1 10 (recount_mem 7)).gens.map
      (fun s => ((s.population 0).score, (s.population 0).num_transistors,
        (s.population 0).genes)) =
      [(0, 2, [1, 1]), (0, 1, [1]), (0, 0, [])] := by
  decide

/-! ## Facts about `main` -/

theorem mutation_banner_eq_none {mutation : Int}
    (hm : mutation ≠ 1 ∧ mutation ≠ 2 ∧ mutation ≠ 3) : mutation_banner mutation = none := by
  simp [mutation_banner, hm.1, hm.2.1, hm.2.2]

theorem mutation_banner_valid {mutation : Int}
    (hm : mutation = 1 ∨ mutation = 2 ∨ mutation = 3) :
    ∃ b, mutation_banner mutation = some b := by
  rcases hm with hm | hm | hm <;> simp [mutation_banner, hm]

theorem main_of_invalid (h : Helpers) (fuel : Nat) (argv : List String) (m0 : Mem)
    (hargc : 6 ≤ argv.length) (hopen : main_out_file h argv ≠ Stream.null)
    (hm : parsed_mutation h argv ≠ 1 ∧ parsed_mutation h argv ≠ 2 ∧
      parsed_mutation h argv ≠ 3) :
    main h fuel argv m0 = ⟨[], some 1, false, main_out_file h argv,
      { main_config h argv m0 with
        out := (main_config h argv m0).out ++ [Line.invalid_mutation] }⟩ := by
  have hlt : ¬ ((argv.length : Int) < 6) := by omega
  simp [main, hlt, hopen, mutation_banner_eq_none hm]

theorem main_of_valid (h : Helpers) (fuel : Nat) (argv : List String) (m0 : Mem)
    (hargc : 6 ≤ argv.length) (hopen : main_out_file h argv ≠ Stream.null)
    (hm : parsed_mutation h argv = 1 ∨ parsed_mutation h argv = 2 ∨
      parsed_mutation h argv = 3) :
    main h fuel argv m0 = main_modes h fuel (parsed_mutation h argv) (argv.length : Int) argv
      (main_out_file h argv) (main_entry h argv m0) := by
  obtain ⟨b, hb⟩ := mutation_banner_valid hm
  have hlt : ¬ ((argv.length : Int) < 6) := by omega
  simp [main, hlt, hopen, hb]

theorem evolves_cgp_bdd_zero_or_one (h : Helpers) (mutation : Int) (fuel : Nat) (m : Mem)
    (r : Int) (m' : Mem) (hret : (evolves_cgp_bdd h mutation fuel m).result = some (r, m')) :
    r = 0 ∨ r = 1 := by
  obtain ⟨_, _, _, _, hcase⟩ := evolves_loop_return h mutation fuel _ r m' hret
  rcases hcase with ⟨hr, _⟩ | ⟨hr, _⟩
  · exact Or.inr hr
  · exact Or.inl hr

theorem main_modes_calls (h : Helpers) (fuel : Nat) (mutation : Int) (argc : Int)
    (argv : List String) (out_file : Stream) (m : Mem) :
    (7 < argc → Call.sow_population ∈ (main_modes h fuel mutation argc argv out_file m).calls ∧
      Call.evolves_cgp_bdd ∉ (main_modes h fuel mutation argc argv out_file m).calls) ∧
    (argc ≤ 7 → Call.evolves_cgp_bdd ∈ (main_modes h fuel mutation argc argv out_file m).calls ∧
      Call.sow_population ∉ (main_modes h fuel mutation argc argv out_file m).calls) := by
  constructor
  · intro hgt
    have hle : ¬ argc ≤ 7 := by omega
    simp only [main_modes, if_neg hle, if_pos hgt, main_seeded]
    split_ifs
    · simp
    · split <;> simp [main_finish]
  · intro hle
    simp only [main_modes, if_pos hle, main_fresh]
    split
    · simp
    · split_ifs
      · split <;> simp [main_finish]
      · simp [main_finish]

theorem main_modes_out_file (h : Helpers) (fuel : Nat) (mutation : Int) (argc : Int)
    (argv : List String) (out_file : Stream) (m : Mem) :
    (main_modes h fuel mutation argc argv out_file m).out_file = out_file := by
  simp only [main_modes, main_fresh, main_seeded, main_finish]
  repeat' split
  all_goals rfl

theorem main_out_file_eq (h : Helpers) (fuel : Nat) (argv : List String) (m0 : Mem)
    (hargc : 6 ≤ argv.length) (hopen : main_out_file h argv ≠ Stream.null) :
    (main h fuel argv m0).out_file = main_out_file h argv := by
  have hlt : ¬ ((argv.length : Int) < 6) := by omega
  cases hb : mutation_banner (parsed_mutation h argv) with
  | none => simp [main, hlt, hopen, hb]
  | some b => simp [main, hlt, hopen, hb, main_modes_out_file]

theorem main_out_file_cases (h : Helpers) (argv : List String)
    (hopen : main_out_file h argv ≠ Stream.null) :
    (argv.length = 7 → main_out_file h argv = Stream.file (arg argv 6)) ∧
    (argv.length = 8 → main_out_file h argv = Stream.file (arg argv 7)) ∧
    (argv.length ≠ 7 → argv.length ≠ 8 → main_out_file h argv = Stream.stdout) := by
  refine ⟨?_, ?_, ?_⟩
  · intro h7
    have h7i : (argv.length : Int) = 7 := by omega
    unfold main_out_file at hopen ⊢
    rw [if_pos h7i] at hopen ⊢
    by_cases ho : h.fopen (arg argv 6) = true
    · rw [if_pos ho]
    · rw [if_neg ho] at hopen; exact absurd rfl hopen
  · intro h8
    have h7i : ¬ (argv.length : Int) = 7 := by omega
    have h8i : (argv.length : Int) = 8 := by omega
    unfold main_out_file at hopen ⊢
    rw [if_neg h7i, if_pos h8i] at hopen ⊢
    by_cases ho : h.fopen (arg argv 7) = true
    · rw [if_pos ho]
    · rw [if_neg ho] at hopen; exact absurd rfl hopen
  · intro h7 h8
    have h7i : ¬ (argv.length : Int) = 7 := by omega
    have h8i : ¬ (argv.length : Int) = 8 := by omega
    unfold main_out_file
    rw [if_neg h7i, if_neg h8i]

/-- C1, the claim as stated fails: with seven arguments, a log path that `fopen` cannot open
and a selector that stays 0, `out_file` is `NULL`, the `fprintf` of line 210 crashes, and the
run neither writes the diagnostic nor exits with code 1. -/
theorem main_invalid_mutation_unopened_log :
    (parsed_mutation demo_helpers_unparsed_locked (demo_argv 7) ≠ 1 ∧
      parsed_mutation demo_helpers_unparsed_locked (demo_argv 7) ≠ 2 ∧
      parsed_mutation demo_helpers_unparsed_locked (demo_argv 7) ≠ 3) ∧
    (main demo_helpers_unparsed_locked 10 (demo_argv 7) (demo_mem 0)).out_file = Stream.null ∧
    (main demo_helpers_unparsed_locked 10 (demo_argv 7) (demo_mem 0)).crashed = true ∧
    (main demo_helpers_unparsed_locked 10 (demo_argv 7) (demo_mem 0)).exit ≠ some 1 ∧
    Line.invalid_mutation ∉
      (main demo_helpers_unparsed_locked 10 (demo_argv 7) (demo_mem 0)).mem.out := by
  decide

/-- C1, amended: in a run with at least six arguments and a usable log stream (standard
output, or a path that `fopen` opened), when the scanned mutation selector is none of 1, 2, 3,
`main` writes the diagnostic to the log, exits with code 1 and has made none of the later
calls: the engine, the table and the population are as they were at program start and
neither phase has run. -/
theorem main_invalid_mutation_exits (h : Helpers) (fuel : Nat) (argv : List String) (m0 : Mem)
    (hargc : 6 ≤ argv.length) (hopen : main_out_file h argv ≠ Stream.null)
    (hm : parsed_mutation h argv ≠ 1 ∧ parsed_mutation h argv ≠ 2 ∧
      parsed_mutation h argv ≠ 3) :
    (main h fuel argv m0).exit = some 1 ∧
    (main h fuel argv m0).crashed = false ∧
    (main h fuel argv m0).calls = [] ∧
    (main h fuel argv m0).mem.out = [Line.invalid_mutation] ∧
    (main h fuel argv m0).mem.bdd = m0.bdd ∧
    (main h fuel argv m0).mem.table = m0.table ∧
    (main h fuel argv m0).mem.population = m0.population := by
  rw [main_of_invalid h fuel argv m0 hargc hopen hm]
  simp [main_config]

theorem main_invalid_mutation_exits_witness :
    (6 ≤ (demo_argv 7).length) ∧
    (main_out_file demo_helpers_unparsed (demo_argv 7) ≠ Stream.null) ∧
    (parsed_mutation demo_helpers_unparsed (demo_argv 7) ≠ 1 ∧
      parsed_mutation demo_helpers_unparsed (demo_argv 7) ≠ 2 ∧
      parsed_mutation demo_helpers_unparsed (demo_argv 7) ≠ 3) ∧
    ((main demo_helpers_unparsed 10 (demo_argv 7) (demo_mem 0)).exit = some 1 ∧
    (main demo_helpers_unparsed 10 (demo_argv 7) (demo_mem 0)).crashed = false ∧
    (main demo_helpers_unparsed 10 (demo_argv 7) (demo_mem 0)).calls = [] ∧
    (main demo_helpers_unparsed 10 (demo_argv 7) (demo_mem 0)).mem.out = [Line.invalid_mutation] ∧
    (main demo_helpers_unparsed 10 (demo_argv 7) (demo_mem 0)).mem.bdd = (demo_mem 0).bdd ∧
    (main demo_helpers_unparsed 10 (demo_argv 7) (demo_mem 0)).mem.table = (demo_mem 0).table ∧
    (main demo_helpers_unparsed 10 (demo_argv 7) (demo_mem 0)).mem.population = (demo_mem 0).population) :=
  ⟨by decide, by decide, by decide,
    main_invalid_mutation_exits demo_helpers_unparsed 10 (demo_argv 7) (demo_mem 0)
      (by decide) (by decide) (by decide)⟩

/-- C2: in seeded mode (`argc > 7`, log stream usable, valid selector) `evolves_cgp_bdd` is
never called.  When the recomputed score of the sown parent is not 0, `main` exits with code 1
without cloning and without calling `optimize_circuit`; when it is 0, `main` calls
`clone_parent` and then `optimize_circuit` on the cloned population, and finishes with code 0
once that returns. -/
theorem main_seeded_requires_score_zero (h : Helpers) (fuel : Nat) (argv : List String)
    (m0 : Mem) (hargc : 7 < argv.length) (hopen : main_out_file h argv ≠ Stream.null)
    (hm : parsed_mutation h argv = 1 ∨ parsed_mutation h argv = 2 ∨
      parsed_mutation h argv = 3) :
    Call.evolves_cgp_bdd ∉ (main h fuel argv m0).calls ∧
    (((main_sow h argv (main_entry h argv m0)).population 0).score ≠ 0 →
      (main h fuel argv m0).exit = some 1 ∧
      Call.clone_parent ∉ (main h fuel argv m0).calls ∧
      Call.optimize_circuit ∉ (main h fuel argv m0).calls) ∧
    (((main_sow h argv (main_entry h argv m0)).population 0).score = 0 →
      (∃ rest, (main h fuel argv m0).calls =
        [Call.bdd_init, Call.table_constructor, Call.initialize_population,
          Call.sow_population, Call.clear_individiual_active_genes,
          Call.calculate_individual_sat_count, Call.clone_parent, Call.optimize_circuit] ++
          rest) ∧
      (main h fuel argv m0).exit =
        (optimize_circuit h (parsed_mutation h argv) fuel
          { (main_sow h argv (main_entry h argv m0)) with
            population := h.clone_parent
              (main_sow h argv (main_entry h argv m0)).population }).result.map
          (fun _ => 0)) := by
  have hle : ¬ (argv.length : Int) ≤ 7 := by omega
  have hgt : (argv.length : Int) > 7 := by omega
  rw [main_of_valid h fuel argv m0 (by omega) hopen hm]
  simp only [main_modes, if_neg hle, if_pos hgt, main_seeded]
  refine ⟨?_, ?_, ?_⟩
  · split_ifs with hs
    · simp
    · split <;> simp [main_finish]
  · intro hs
    rw [if_pos hs]
    simp
  · intro hs
    rw [if_neg (by simpa using hs)]
    split
    · next hres => exact ⟨⟨[], by simp⟩, by simp [hres]⟩
    · next m3 hres =>
      exact ⟨⟨[Call.bdd_done], by simp [main_finish]⟩, by simp [hres, main_finish]⟩

theorem main_seeded_requires_score_zero_witness :
    (7 < (demo_argv 8).length) ∧
    (main_out_file demo_helpers (demo_argv 8) ≠ Stream.null) ∧
    (parsed_mutation demo_helpers (demo_argv 8) = 1 ∨ parsed_mutation demo_helpers (demo_argv 8) = 2 ∨
      parsed_mutation demo_helpers (demo_argv 8) = 3) ∧
    (Call.evolves_cgp_bdd ∉ (main demo_helpers 10 (demo_argv 8) (demo_mem 0)).calls ∧
    (((main_sow demo_helpers (demo_argv 8) (main_entry demo_helpers (demo_argv 8) (demo_mem 0))).population 0).score ≠ 0 →
      (main demo_helpers 10 (demo_argv 8) (demo_mem 0)).exit = some 1 ∧
      Call.clone_parent ∉ (main demo_helpers 10 (demo_argv 8) (demo_mem 0)).calls ∧
      Call.optimize_circuit ∉ (main demo_helpers 10 (demo_argv 8) (demo_mem 0)).calls) ∧
    (((main_sow demo_helpers (demo_argv 8) (main_entry demo_helpers (demo_argv 8) (demo_mem 0))).population 0).score = 0 →
      (∃ rest, (main demo_helpers 10 (demo_argv 8) (demo_mem 0)).calls =
        [Call.bdd_init, Call.table_constructor, Call.initialize_population,
          Call.sow_population, Call.clear_individiual_active_genes,
          Call.calculate_individual_sat_count, Call.clone_parent, Call.optimize_circuit] ++
          rest) ∧
      (main demo_helpers 10 (demo_argv 8) (demo_mem 0)).exit =
        (optimize_circuit demo_helpers (parsed_mutation demo_helpers (demo_argv 8)) 10
          { (main_sow demo_helpers (demo_argv 8) (main_entry demo_helpers (demo_argv 8) (demo_mem 0))) with
            population := demo_helpers.clone_parent
              (main_sow demo_helpers (demo_argv 8) (main_entry demo_helpers (demo_argv 8) (demo_mem 0))).population }).result.map
          (fun _ => 0))) :=
  ⟨by decide, by decide, Or.inl rfl,
    main_seeded_requires_score_zero demo_helpers 10 (demo_argv 8) (demo_mem 0) (by decide)
      (by decide) (Or.inl rfl)⟩

/-- C4: in fresh-random mode (`6 <= argc <= 7`, log stream usable, valid selector)
`optimize_circuit` is called exactly when `evolves_cgp_bdd` returned 1, and then it is run on
the memory Phase I returned: `main` exits (with code 0) exactly when that run returns, after
`bdd_done` and with that run's memory plus the total-time line.  When `evolves_cgp_bdd`
returned 0, `optimize_circuit` is not called, `bdd_done` is, the total-time line is the last
line of the log and the exit code is 0. -/
theorem main_fresh_phase_two_iff (h : Helpers) (fuel : Nat) (argv : List String) (m0 : Mem)
    (hargc : 6 ≤ argv.length) (hfresh : argv.length ≤ 7)
    (hopen : main_out_file h argv ≠ Stream.null)
    (hm : parsed_mutation h argv = 1 ∨ parsed_mutation h argv = 2 ∨
      parsed_mutation h argv = 3) :
    (Call.optimize_circuit ∈ (main h fuel argv m0).calls ↔
      ∃ m1, (evolves_cgp_bdd h (parsed_mutation h argv) fuel
        (main_entry h argv m0)).result = some (1, m1)) ∧
    (∀ m1, (evolves_cgp_bdd h (parsed_mutation h argv) fuel
        (main_entry h argv m0)).result = some (1, m1) →
      (∃ rest, (main h fuel argv m0).calls =
        [Call.bdd_init, Call.table_constructor, Call.initialize_population,
          Call.evolves_cgp_bdd, Call.optimize_circuit] ++ rest) ∧
      (main h fuel argv m0).exit = (optimize_circuit h (parsed_mutation h argv) fuel m1).result.map (fun _ => 0) ∧
      (∀ m2, (optimize_circuit h (parsed_mutation h argv) fuel m1).result = some m2 →
        (main h fuel argv m0).calls =
          [Call.bdd_init, Call.table_constructor, Call.initialize_population,
            Call.evolves_cgp_bdd, Call.optimize_circuit, Call.bdd_done] ∧
        (main h fuel argv m0).mem = { m2 with out := m2.out ++ [Line.total_time] })) ∧
    (∀ m1, (evolves_cgp_bdd h (parsed_mutation h argv) fuel
        (main_entry h argv m0)).result = some (0, m1) →
      Call.optimize_circuit ∉ (main h fuel argv m0).calls ∧
      (main h fuel argv m0).calls =
        [Call.bdd_init, Call.table_constructor, Call.initialize_population,
          Call.evolves_cgp_bdd, Call.bdd_done] ∧
      (main h fuel argv m0).exit = some 0 ∧
      (main h fuel argv m0).mem.out = m1.out ++ [Line.total_time]) := by
  have hle : (argv.length : Int) ≤ 7 := by omega
  rw [main_of_valid h fuel argv m0 hargc hopen hm]
  simp only [main_modes, if_pos hle, main_fresh]
  refine ⟨?_, ?_, ?_⟩
  · cases hres : (evolves_cgp_bdd h (parsed_mutation h argv) fuel
        (main_entry h argv m0)).result with
    | none => simp
    | some rm =>
      obtain ⟨r, m1⟩ := rm
      rcases evolves_cgp_bdd_zero_or_one h _ fuel _ r m1 hres with hr | hr
      · subst hr; simp [main_finish]
      · subst hr
        simp only [ne_eq, one_ne_zero, not_false_eq_true, if_true]
        constructor
        · intro _; exact ⟨m1, by simp⟩
        · intro _; split <;> simp [main_finish]
  · intro m1 hres
    simp only [hres, ne_eq, one_ne_zero, not_false_eq_true, if_true]
    cases hopt : (optimize_circuit h (parsed_mutation h argv) fuel m1).result with
    | none => exact ⟨⟨[], by simp⟩, by simp, by intro m2 hm2; simp at hm2⟩
    | some m3 =>
      refine ⟨⟨[Call.bdd_done], by simp [main_finish]⟩, by simp [main_finish], ?_⟩
      intro m2 hm2
      simp only [Option.some.injEq] at hm2
      subst hm2
      simp [main_finish]
  · intro m1 hres
    simp [hres, main_finish]

theorem main_fresh_phase_two_iff_witness :
    (6 ≤ (demo_argv 6).length) ∧ ((demo_argv 6).length ≤ 7) ∧
    (main_out_file demo_helpers_funded (demo_argv 6) ≠ Stream.null) ∧
    (parsed_mutation demo_helpers_funded (demo_argv 6) = 1 ∨ parsed_mutation demo_helpers_funded (demo_argv 6) = 2 ∨
      parsed_mutation demo_helpers_funded (demo_argv 6) = 3) ∧
    ((Call.optimize_circuit ∈ (main demo_helpers_funded 10 (demo_argv 6) (demo_mem 0)).calls ↔
      ∃ m1, (evolves_cgp_bdd demo_helpers_funded (parsed_mutation demo_helpers_funded (demo_argv 6)) 10
        (main_entry demo_helpers_funded (demo_argv 6) (demo_mem 0))).result = some (1, m1)) ∧
    (∀ m1, (evolves_cgp_bdd demo_helpers_funded (parsed_mutation demo_helpers_funded (demo_argv 6)) 10
        (main_entry demo_helpers_funded (demo_argv 6) (demo_mem 0))).result = some (1, m1) →
      (∃ rest, (main demo_helpers_funded 10 (demo_argv 6) (demo_mem 0)).calls =
        [Call.bdd_init, Call.table_constructor, Call.initialize_population,
          Call.evolves_cgp_bdd, Call.optimize_circuit] ++ rest) ∧
      (main demo_helpers_funded 10 (demo_argv 6) (demo_mem 0)).exit = (optimize_circuit demo_helpers_funded (parsed_mutation demo_helpers_funded (demo_argv 6)) 10 m1).result.map (fun _ => 0) ∧
      (∀ m2, (optimize_circuit demo_helpers_funded (parsed_mutation demo_helpers_funded (demo_argv 6)) 10 m1).result = some m2 →
        (main demo_helpers_funded 10 (demo_argv 6) (demo_mem 0)).calls =
          [Call.bdd_init, Call.table_constructor, Call.initialize_population,
            Call.evolves_cgp_bdd, Call.optimize_circuit, Call.bdd_done] ∧
        (main demo_helpers_funded 10 (demo_argv 6) (demo_mem 0)).mem = { m2 with out := m2.out ++ [Line.total_time] })) ∧
    (∀ m1, (evolves_cgp_bdd demo_helpers_funded (parsed_mutation demo_helpers_funded (demo_argv 6)) 10
        (main_entry demo_helpers_funded (demo_argv 6) (demo_mem 0))).result = some (0, m1) →
      Call.optimize_circuit ∉ (main demo_helpers_funded 10 (demo_argv 6) (demo_mem 0)).calls ∧
      (main demo_helpers_funded 10 (demo_argv 6) (demo_mem 0)).calls =
        [Call.bdd_init, Call.table_constructor, Call.initialize_population,
          Call.evolves_cgp_bdd, Call.bdd_done] ∧
      (main demo_helpers_funded 10 (demo_argv 6) (demo_mem 0)).exit = some 0 ∧
      (main demo_helpers_funded 10 (demo_argv 6) (demo_mem 0)).mem.out = m1.out ++ [Line.total_time])) :=
  ⟨by decide, by decide, by decide, Or.inl (by decide),
    main_fresh_phase_two_iff demo_helpers_funded 10 (demo_argv 6) (demo_mem 0) (by decide)
      (by decide) (by decide) (Or.inl (by decide))⟩

/-- C9, the claim as stated fails: with three arguments (`argc <= 7`) the run crashes in the
argument scan of lines 182-185 and never calls `evolves_cgp_bdd`; with seven arguments and a
log path that `fopen` cannot open, `out_file` is `NULL`, not a stream on `argv[6]`, and the
run crashes at line 203 before either mode is taken. -/
theorem main_mode_not_by_argc_alone :
    ((demo_argv 3).length ≤ 7 ∧
      (main demo_helpers 10 (demo_argv 3) (demo_mem 0)).crashed = true ∧
      Call.evolves_cgp_bdd ∉ (main demo_helpers 10 (demo_argv 3) (demo_mem 0)).calls) ∧
    ((demo_argv 7).length = 7 ∧
      (main demo_helpers_locked 10 (demo_argv 7) (demo_mem 0)).out_file ≠
        Stream.file (arg (demo_argv 7) 6) ∧
      (main demo_helpers_locked 10 (demo_argv 7) (demo_mem 0)).crashed = true ∧
      Call.evolves_cgp_bdd ∉
        (main demo_helpers_locked 10 (demo_argv 7) (demo_mem 0)).calls) := by
  decide

/-- C9, amended: in a run with at least six arguments and a usable log stream, the log goes to
`argv[6]` when `argc = 7`, to `argv[7]` when `argc = 8` and to standard output for every
other `argc`; `sow_population` is called only when `argc > 7` and `evolves_cgp_bdd` only when
`argc <= 7`, and a run with a valid selector takes seeded mode (sow, no Phase I) for
`argc > 7` and fresh-random mode (Phase I, no sow) for `argc <= 7`. -/
theorem main_mode_and_log_by_argc (h : Helpers) (fuel : Nat) (argv : List String) (m0 : Mem)
    (hargc : 6 ≤ argv.length) (hopen : main_out_file h argv ≠ Stream.null) :
    (argv.length = 7 → (main h fuel argv m0).out_file = Stream.file (arg argv 6)) ∧
    (argv.length = 8 → (main h fuel argv m0).out_file = Stream.file (arg argv 7)) ∧
    (argv.length ≠ 7 → argv.length ≠ 8 → (main h fuel argv m0).out_file = Stream.stdout) ∧
    (Call.sow_population ∈ (main h fuel argv m0).calls → 7 < argv.length) ∧
    (Call.evolves_cgp_bdd ∈ (main h fuel argv m0).calls → argv.length ≤ 7) ∧
    (parsed_mutation h argv = 1 ∨ parsed_mutation h argv = 2 ∨
      parsed_mutation h argv = 3 →
      (7 < argv.length → Call.sow_population ∈ (main h fuel argv m0).calls ∧
        Call.evolves_cgp_bdd ∉ (main h fuel argv m0).calls) ∧
      (argv.length ≤ 7 → Call.evolves_cgp_bdd ∈ (main h fuel argv m0).calls ∧
        Call.sow_population ∉ (main h fuel argv m0).calls)) := by
  have hvalid : (parsed_mutation h argv = 1 ∨ parsed_mutation h argv = 2 ∨
      parsed_mutation h argv = 3) →
      (7 < argv.length → Call.sow_population ∈ (main h fuel argv m0).calls ∧
        Call.evolves_cgp_bdd ∉ (main h fuel argv m0).calls) ∧
      (argv.length ≤ 7 → Call.evolves_cgp_bdd ∈ (main h fuel argv m0).calls ∧
        Call.sow_population ∉ (main h fuel argv m0).calls) := by
    intro hm
    rw [main_of_valid h fuel argv m0 hargc hopen hm]
    have hc := main_modes_calls h fuel (parsed_mutation h argv) (argv.length : Int) argv
      (main_out_file h argv) (main_entry h argv m0)
    exact ⟨fun hgt => hc.1 (by omega), fun hle => hc.2 (by omega)⟩
  have hinvalid : ¬ (parsed_mutation h argv = 1 ∨ parsed_mutation h argv = 2 ∨
      parsed_mutation h argv = 3) → (main h fuel argv m0).calls = [] := by
    intro hm
    have hm3 : parsed_mutation h argv ≠ 1 ∧ parsed_mutation h argv ≠ 2 ∧
        parsed_mutation h argv ≠ 3 := by
      refine ⟨fun hc => hm (Or.inl hc), fun hc => hm (Or.inr (Or.inl hc)),
        fun hc => hm (Or.inr (Or.inr hc))⟩
    rw [main_of_invalid h fuel argv m0 hargc hopen hm3]
  have hfile := main_out_file_cases h argv hopen
  refine ⟨?_, ?_, ?_, ?_, ?_, hvalid⟩
  · intro h7; rw [main_out_file_eq h fuel argv m0 hargc hopen]; exact hfile.1 h7
  · intro h8; rw [main_out_file_eq h fuel argv m0 hargc hopen]; exact hfile.2.1 h8
  · intro h7 h8; rw [main_out_file_eq h fuel argv m0 hargc hopen]; exact hfile.2.2 h7 h8
  · intro hmem
    by_cases hm : parsed_mutation h argv = 1 ∨ parsed_mutation h argv = 2 ∨
      parsed_mutation h argv = 3
    · by_contra hgt
      exact ((hvalid hm).2 (by omega)).2 hmem
    · rw [hinvalid hm] at hmem; simp at hmem
  · intro hmem
    by_cases hm : parsed_mutation h argv = 1 ∨ parsed_mutation h argv = 2 ∨
      parsed_mutation h argv = 3
    · by_contra hgt
      exact ((hvalid hm).1 (by omega)).2 hmem
    · rw [hinvalid hm] at hmem; simp at hmem

theorem main_mode_and_log_by_argc_witness :
    (6 ≤ (demo_argv 8).length) ∧
    (main_out_file demo_helpers (demo_argv 8) ≠ Stream.null) ∧
    (((demo_argv 8).length = 7 → (main demo_helpers 10 (demo_argv 8) (demo_mem 0)).out_file = Stream.file (arg (demo_argv 8) 6)) ∧
    ((demo_argv 8).length = 8 → (main demo_helpers 10 (demo_argv 8) (demo_mem 0)).out_file = Stream.file (arg (demo_argv 8) 7)) ∧
    ((demo_argv 8).length ≠ 7 → (demo_argv 8).length ≠ 8 → (main demo_helpers 10 (demo_argv 8) (demo_mem 0)).out_file = Stream.stdout) ∧
    (Call.sow_population ∈ (main demo_helpers 10 (demo_argv 8) (demo_mem 0)).calls → 7 < (demo_argv 8).length) ∧
    (Call.evolves_cgp_bdd ∈ (main demo_helpers 10 (demo_argv 8) (demo_mem 0)).calls → (demo_argv 8).length ≤ 7) ∧
    (parsed_mutation demo_helpers (demo_argv 8) = 1 ∨ parsed_mutation demo_helpers (demo_argv 8) = 2 ∨
      parsed_mutation demo_helpers (demo_argv 8) = 3 →
      (7 < (demo_argv 8).length → Call.sow_population ∈ (main demo_helpers 10 (demo_argv 8) (demo_mem 0)).calls ∧
        Call.evolves_cgp_bdd ∉ (main demo_helpers 10 (demo_argv 8) (demo_mem 0)).calls) ∧
      ((demo_argv 8).length ≤ 7 → Call.evolves_cgp_bdd ∈ (main demo_helpers 10 (demo_argv 8) (demo_mem 0)).calls ∧
        Call.sow_population ∉ (main demo_helpers 10 (demo_argv 8) (demo_mem 0)).calls))) :=
  ⟨by decide, by decide,
    main_mode_and_log_by_argc demo_helpers 10 (demo_argv 8) (demo_mem 0) (by decide)
      (by decide)⟩

/-! ## Runs of the demo instance -/

theorem demo_phase_one_success :
    (evolves_cgp_bdd demo_helpers 1 10 (demo_mem 100)).result.map Prod.fst = some 1 ∧
    (evolves_cgp_bdd demo_helpers 1 10 (demo_mem 100)).gens.map
      (fun s => ((s.population 0).score, s.maxeval)) = [(1, 98), (0, 96)] := by
  decide

theorem demo_phase_one_failure :
    (evolves_cgp_bdd demo_helpers 1 10 (demo_mem 3)).result.map Prod.fst = some 0 ∧
    (evolves_cgp_bdd demo_helpers 1 10 (demo_mem 3)).gens.map
      (fun s => ((s.population 0).score, s.maxeval)) = [(1, 1)] := by
  decide

theorem demo_phase_two_run :
    (optimize_circuit demo_helpers 1 10 (demo_mem_correct 7)).gens.map
      (fun s => ((s.population 0).score, (s.population 0).num_transistors, s.maxeval)) =
      [(0, 9, 5), (0, 8, 3), (0, 7, 1)] ∧
    (optimize_circuit demo_helpers 1 10 (demo_mem_correct 7)).result.map
      (fun s => s.out) = some [Line.separator, Line.num_transistors 7 1 1, Line.separator] := by
  decide

theorem demo_main_fresh_failure :
    (main demo_helpers 10 (demo_argv 6) (demo_mem 0)).calls =
      [Call.bdd_init, Call.table_constructor, Call.initialize_population,
        Call.evolves_cgp_bdd, Call.bdd_done] ∧
    (main demo_helpers 10 (demo_argv 6) (demo_mem 0)).exit = some 0 ∧
    (main demo_helpers 10 (demo_argv 6) (demo_mem 0)).out_file = Stream.stdout ∧
    (main demo_helpers 10 (demo_argv 6) (demo_mem 0)).mem.out =
      [Line.SAM, Line.separator, Line.header 1 2, Line.sat_count 1 1 (-1),
        Line.total_time] := by
  decide

theorem demo_main_fresh_success :
    (main demo_helpers_funded 10 (demo_argv 6) (demo_mem 0)).calls =
      [Call.bdd_init, Call.table_constructor, Call.initialize_population,
        Call.evolves_cgp_bdd, Call.optimize_circuit, Call.bdd_done] ∧
    (main demo_helpers_funded 10 (demo_argv 6) (demo_mem 0)).exit = some 0 ∧
    (main demo_helpers_funded 10 (demo_argv 6) (demo_mem 0)).mem.out =
      [Line.SAM, Line.separator, Line.header 1 2, Line.sat_count 0 1 4, Line.separator,
        Line.separator, Line.num_transistors 8 1 0, Line.separator, Line.total_time] := by
  decide

theorem demo_main_seeded :
    (main demo_helpers 10 (demo_argv 8) (demo_mem 0)).calls =
      [Call.bdd_init, Call.table_constructor, Call.initialize_population,
        Call.sow_population, Call.clear_individiual_active_genes,
        Call.calculate_individual_sat_count, Call.clone_parent, Call.optimize_circuit,
        Call.bdd_done] ∧
    (main demo_helpers 10 (demo_argv 8) (demo_mem 0)).exit = some 0 ∧
    (main demo_helpers 10 (demo_argv 8) (demo_mem 0)).out_file =
      Stream.file (arg (demo_argv 8) 7) ∧
    (main demo_helpers 10 (demo_argv 8) (demo_mem 0)).mem.out =
      [Line.SAM, Line.separator, Line.num_transistors 11 1 (-1), Line.separator,
        Line.total_time] := by
  decide

theorem demo_main_invalid_selector :
    (main demo_helpers_unparsed 10 (demo_argv 7) (demo_mem 0)).calls = [] ∧
    (main demo_helpers_unparsed 10 (demo_argv 7) (demo_mem 0)).exit = some 1 ∧
    (main demo_helpers_unparsed 10 (demo_argv 7) (demo_mem 0)).out_file =
      Stream.file (arg (demo_argv 7) 6) ∧
    (main demo_helpers_unparsed 10 (demo_argv 7) (demo_mem 0)).mem.out =
      [Line.invalid_mutation] := by
  decide

theorem demo_main_missing_arguments :
    (main demo_helpers 10 (demo_argv 5) (demo_mem 0)).calls = [] ∧
    (main demo_helpers 10 (demo_argv 5) (demo_mem 0)).exit = none ∧
    (main demo_helpers 10 (demo_argv 5) (demo_mem 0)).crashed = true ∧
    (main demo_helpers 10 (demo_argv 5) (demo_mem 0)).mem.out = [] := by
  decide

end CGP
